import Mathlib

/-! Verification of the core logic of the AI Benchmark Explorer (src/app.py):
the record data model with its derived count columns (load_data), the filter
pipeline (create_filter_panel), the pagination arithmetic and the
selection/detail state handling (main). Tables are embedded as lists of rows;
the pandas operations used by the source are modelled by their documented
semantics (boolean-mask filtering preserves order, comparisons with a missing
value are False, Series.str.contains treats its argument as a regular
expression, iloc slicing clamps to the available rows). -/

namespace BenchmarkExplorer

/-- One row of the dataset table, per the columns src/app.py reads:
identifier, task, optional area, raw comma-delimited text fields, optional
publication year and display-only strings. -/
structure Row where
  dataset_id : String
  task : String
  area : Option String := none
  modalities : Option String := none
  associated_tasks : Option String := none
  benchmark_urls : Option String := none
  year_published : Option Int := none
  license : Option String := none
  languages : Option String := none
  description : Option String := none
deriving DecidableEq, Repr

/-- Helper for Python str.split on a one-character separator: accumulate the
current chunk, cut at each separator occurrence. -/
def splitOnCharAux (sep : Char) (cur : List Char) : List Char → List (List Char)
  | [] => [cur.reverse]
  | c :: cs =>
    if c = sep then cur.reverse :: splitOnCharAux sep [] cs
    else splitOnCharAux sep (c :: cur) cs

/-- Python str.split(sep) for a one-character separator, as used with ',' all
over src/app.py; in particular the empty string splits to [""]. -/
def pySplit (sep : Char) (s : String) : List String :=
  (splitOnCharAux sep [] s.data).map String.mk

/-- Python str.strip(): drop leading and trailing whitespace characters. -/
def pyStrip (s : String) : String :=
  String.mk (((s.data.dropWhile Char.isWhitespace).reverse.dropWhile
    Char.isWhitespace).reverse)

/-- The count computed at load time for benchmark_cnt and associated_task_cnt
(src/app.py lines 116-121):
len([t for t in str(x).split(',') if t.strip()]) if pd.notna(x) else 0. -/
def tokenCnt : Option String → Nat
  | none => 0
  | some s => ((pySplit ',' s).filter (fun t => pyStrip t ≠ "")).length

/-- Derived column benchmark_cnt of load_data (lines 116-118). -/
def benchmark_cnt (r : Row) : Nat := tokenCnt r.benchmark_urls

/-- Derived column associated_task_cnt of load_data (lines 119-121). -/
def associated_task_cnt (r : Row) : Nat := tokenCnt r.associated_tasks

/-- The data model's parsing rule for comma-delimited fields, as the source
itself applies it when building the modality options (line 146) and the
detail chips (lines 225, 238): split on commas, strip each token, drop the
empty ones. -/
def parseTokens (s : String) : List String :=
  ((pySplit ',' s).map pyStrip).filter (fun t => t ≠ "")

/-- All modality tokens gathered for the sidebar multiselect options
(lines 144-147): stripped non-empty tokens of every row's modalities cell,
rows with a missing cell skipped (dropna). -/
def collectModalities (df : List Row) : List String :=
  df.foldr (fun r acc =>
    match r.modalities with
    | none => acc
    | some s => parseTokens s ++ acc) []

/-- The sidebar filter criteria (create_filter_panel, lines 130-156): the
"All" sentinel for task and area means no constraint, an empty modality list
and an empty search string are falsy and skip their steps, and the year
slider yields an inclusive integer range. -/
structure Criteria where
  selectedTask : String
  selectedArea : String
  selectedModalities : List String
  yearLo : Int
  yearHi : Int
  searchTerm : String
deriving DecidableEq, Repr

/-- The modality predicate on one cell (lines 167-170):
any(mod.strip() in str(x).split(',') for mod in selected_modalities) when the
cell is present, False otherwise. The cell is split on commas but its tokens
are NOT stripped; only the selected tag is. -/
def modalityPass (selected : List String) : Option String → Bool
  | none => false
  | some s => selected.any (fun mod => (pySplit ',' s).contains (pyStrip mod))

/-- Spec-side matching rule, stated for comparison from the spec's words
(§4.2 with §3's parsing rule): a row matches when at least one of its parsed
(stripped, non-empty) modality tokens equals a selected tag. -/
def modalityMatchSpec (selected : List String) : Option String → Bool
  | none => false
  | some s => selected.any (fun tag => (parseTokens s).contains tag)

/-- The year-range predicate on one row (lines 172-175):
(year_published >= lo) & (year_published <= hi); a missing value compares as
False on both sides, so it never passes. -/
def yearPass (y : Option Int) (lo hi : Int) : Bool :=
  match y with
  | none => false
  | some v => decide (lo ≤ v) && decide (v ≤ hi)

/-- The year-range step (lines 172-175), applied unconditionally — there is
no check that the active range is narrower than the full observed range. -/
def yearStep (df : List Row) (lo hi : Int) : List Row :=
  df.filter (fun r => yearPass r.year_published lo hi)

/-- One element of a compiled search pattern in the modelled fragment of the
regular-expression syntax that Series.str.contains uses by default
(regex=True): a literal character or the any-character metacharacter. -/
inductive PatElem where
  | lit (c : Char)
  | dot
deriving DecidableEq, Repr

/-- Regex metacharacters outside the modelled fragment: an unbalanced one
such as a lone opening parenthesis is a pattern-compile error in the source
(uncaught), and the others change matching in ways the theorems below do not
need. A brace standing alone is a literal in this syntax, so it stays in the
fragment. -/
def isMeta (c : Char) : Bool :=
  c == '*' || c == '+' || c == '?' || c == '(' || c == ')' || c == '[' ||
  c == ']' || c == '\\' || c == '|' || c == '^' || c == '$'

/-- Compile a pattern within the fragment: '.' becomes the any-character
element, every other non-metacharacter is a literal; none outside the
fragment. -/
def compilePat : List Char → Option (List PatElem)
  | [] => some []
  | c :: rest =>
    if isMeta c then none
    else (compilePat rest).map
      (fun p => (if c = '.' then PatElem.dot else PatElem.lit c) :: p)

/-- Case-insensitive match of one pattern element against one character
(case=False, i.e. re.IGNORECASE); '.' matches anything but a newline. -/
def elemMatch : PatElem → Char → Bool
  | PatElem.dot, c => c != '\n'
  | PatElem.lit l, c => l.toLower == c.toLower

/-- Match the whole pattern starting exactly at the head of the text. -/
def matchHere : List PatElem → List Char → Bool
  | [], _ => true
  | _ :: _, [] => false
  | e :: p, c :: s => elemMatch e c && matchHere p s

/-- Python re.search: try to match at every starting position. -/
def searchAt (p : List PatElem) : List Char → Bool
  | [] => matchHere p []
  | c :: s => matchHere p (c :: s) || searchAt p s

/-- The search step (lines 177-178): skipped entirely when the term is empty
(falsy); otherwise Series.str.contains(term, case=False) keeps the rows whose
dataset_id the pattern matches. Returns none when the pattern falls outside
the modelled fragment — in particular when it is a compile error, which the
source does not catch. -/
def searchStep (term : String) (df : List Row) : Option (List Row) :=
  if term = "" then some df
  else (compilePat term.data).map
    (fun p => df.filter (fun r => searchAt p r.dataset_id.data))

/-- Spec-side search rule (§4.2): case-insensitive literal substring. The
helper checks a literal occurrence of the needle at any position. -/
def infixHere (n : List Char) : List Char → Bool
  | [] => n.isEmpty
  | c :: s => n.isPrefixOf (c :: s) || infixHere n s

/-- Case-insensitive literal substring test, stated from the spec's words. -/
def substrCI (needle hay : String) : Bool :=
  infixHere (needle.data.map Char.toLower) (hay.data.map Char.toLower)

/-- Spec-side search filter: keep the rows whose dataset_id contains the term
as a case-insensitive literal substring. -/
def searchFilterSpecSide (term : String) (df : List Row) : List Row :=
  df.filter (fun r => substrCI term r.dataset_id)

/-- Step 1 of the pipeline (lines 161-162): exact task equality unless the
"All" sentinel is selected. -/
def taskStep (df : List Row) (c : Criteria) : List Row :=
  if c.selectedTask ≠ "All" then df.filter (fun r => r.task == c.selectedTask)
  else df

/-- Step 2 (lines 164-165): exact area equality unless "All"; a missing area
cell compares unequal to every selected area. -/
def areaStep (df : List Row) (c : Criteria) : List Row :=
  if c.selectedArea ≠ "All" then
    df.filter (fun r => r.area == some c.selectedArea)
  else df

/-- Step 3 (lines 167-170): modality filter, skipped when no tag is
selected. -/
def modalityStep (df : List Row) (c : Criteria) : List Row :=
  if c.selectedModalities ≠ [] then
    df.filter (fun r => modalityPass c.selectedModalities r.modalities)
  else df

/-- The whole filter pipeline of create_filter_panel (lines 159-180), in
source order: task, area, modalities, year range (always applied), then
search. Boolean-mask filtering keeps the surviving rows in their original
order. -/
def applyFilters (df : List Row) (c : Criteria) : Option (List Row) :=
  searchStep c.searchTerm
    (yearStep (modalityStep (areaStep (taskStep df c) c) c) c.yearLo c.yearHi)

/-- Result of the pagination arithmetic of main (lines 271-284). -/
structure PageView where
  pages : Nat
  effectivePage : Nat
  startIdx : Nat
  rows : List Row
deriving DecidableEq, Repr

/-- total_pages = math.ceil(total_rows / page_size) (line 271), as the exact
ceiling division on naturals. -/
def totalPagesOf (totalRows pageSize : Nat) : Nat :=
  (totalRows + pageSize - 1) / pageSize

/-- The pagination logic of main (lines 271-284): a requested page beyond
total_pages is reset to 1, then the slice [start, start + size) of the
filtered rows is taken; iloc clamps the slice to the rows that exist. Total
by construction — no input raises. -/
def paginate (rows : List Row) (pageSize requestedPage : Nat) : PageView :=
  let tp := totalPagesOf rows.length pageSize
  let page := if requestedPage > tp then 1 else requestedPage
  let start := (page - 1) * pageSize
  { pages := tp, effectivePage := page, startIdx := start,
    rows := (rows.drop start).take pageSize }

/-- Lookup of a selected id in the FULL table (line 421):
df[df['dataset_id'] == sel] keeps the matching rows; head? stands for
iloc[0], which yields the first match and raises on an empty selection. -/
def lookupDetail (df : List Row) (id : String) : Option Row :=
  (df.filter (fun r => r.dataset_id == id)).head?

/-- The detail-rendering path of main (lines 420-423): a falsy selection
(none, or the empty string) shows nothing; otherwise the row is looked up in
the full unfiltered table, and an absent id makes iloc[0] raise an uncaught
IndexError, modelled as Except.error. -/
def renderSelectedDetail (df : List Row) (sel : Option String) :
    Except Unit (Option Row) :=
  match sel with
  | none => Except.ok none
  | some id =>
    if id = "" then Except.ok none
    else
      match lookupDetail df id with
      | some r => Except.ok (some r)
      | none => Except.error ()

/-- The user interactions that touch the session state relevant to
selection. -/
inductive UIEvent where
  | selectRow (id : String)
  | filterChange
  | pageChange
deriving DecidableEq, Repr

/-- How st.session_state.selected_dataset_id evolves: it is written only in
the per-row button handler (line 351); filter-widget interactions and
pagination buttons never assign it. -/
def selectionStep (sel : Option String) : UIEvent → Option String
  | UIEvent.selectRow id => some id
  | UIEvent.filterChange => sel
  | UIEvent.pageChange => sel

/-! Helper lemmas shared by the claim theorems. -/

/-- A conditional filter step never adds rows: the result is a sublist. -/
theorem ite_filter_sub (p : Prop) [Decidable p] (f : Row → Bool)
    (l : List Row) : (if p then l.filter f else l).Sublist l := by
  split
  · exact List.filter_sublist l
  · exact List.Sublist.refl l

/-- The search step never adds rows: any table it returns is a sublist of its
input. -/
theorem searchStep_sub {t : String} {l ft : List Row}
    (h : searchStep t l = some ft) : ft.Sublist l := by
  unfold searchStep at h
  by_cases ht : t = ""
  · rw [if_pos ht] at h
    cases h
    exact List.Sublist.refl l
  · rw [if_neg ht] at h
    cases hc : compilePat t.data with
    | none => rw [hc] at h; simp at h
    | some p =>
      rw [hc, Option.map_some'] at h
      injection h with h
      exact h ▸ List.filter_sublist l

/-- The year predicate succeeds exactly on a present year inside the
inclusive bounds. -/
theorem yearPass_iff (oy : Option Int) (lo hi : Int) :
    yearPass oy lo hi = true ↔ ∃ y : Int, oy = some y ∧ lo ≤ y ∧ y ≤ hi := by
  cases oy with
  | none => simp [yearPass]
  | some v => simp [yearPass]

/-- Filtering on the stripped token being non-empty counts the same tokens as
first stripping and then dropping the empties. -/
theorem filter_strip_length (l : List String) :
    (l.filter (fun t => pyStrip t ≠ "")).length =
      ((l.map pyStrip).filter (fun t => t ≠ "")).length := by
  induction l with
  | nil => rfl
  | cons a l ih =>
    simp only [List.map_cons, List.filter_cons, ne_eq, decide_not]
    by_cases h : pyStrip a = ""
    · simpa [h] using ih
    · simpa [h] using ih

/-! Claim theorems. -/

/-- C9: for every table and criteria, whenever the filter pipeline returns a
table it is a sublist of the input — same relative order, no duplication, no
fabricated rows — and its dataset_ids are a subset of the input's. -/
theorem apply_filters_sublist (df : List Row) (c : Criteria) (ft : List Row)
    (h : applyFilters df c = some ft) :
    ft.Sublist df ∧
      ∀ id ∈ ft.map Row.dataset_id, id ∈ df.map Row.dataset_id := by
  have h1 : (taskStep df c).Sublist df := ite_filter_sub _ _ _
  have h2 : (areaStep (taskStep df c) c).Sublist (taskStep df c) :=
    ite_filter_sub _ _ _
  have h3 : (modalityStep (areaStep (taskStep df c) c) c).Sublist
      (areaStep (taskStep df c) c) := ite_filter_sub _ _ _
  have h4 : (yearStep (modalityStep (areaStep (taskStep df c) c) c)
      c.yearLo c.yearHi).Sublist
      (modalityStep (areaStep (taskStep df c) c) c) :=
    List.filter_sublist _
  have h5 := searchStep_sub h
  have hsub : ft.Sublist df :=
    ((((h5.trans h4).trans h3).trans h2).trans h1)
  exact ⟨hsub, fun id hid => (hsub.map Row.dataset_id).subset hid⟩

/-- Concrete rows used by the closed instances below. -/
def rA9 : Row := { dataset_id := "a9", task := "t1", year_published := some 2020 }

def rB9 : Row := { dataset_id := "b9", task := "t2", year_published := some 2021 }

/-- Witness for C9 at a concrete table and criteria. -/
theorem apply_filters_sublist_witness :
    ([rA9] : List Row).Sublist [rA9, rB9] ∧
      ∀ id ∈ ([rA9] : List Row).map Row.dataset_id,
        id ∈ ([rA9, rB9] : List Row).map Row.dataset_id :=
  apply_filters_sublist [rA9, rB9]
    { selectedTask := "t1", selectedArea := "All", selectedModalities := [],
      yearLo := 2019, yearHi := 2022, searchTerm := "" } [rA9] (by decide)

/-- C1 (amended): the empty criteria — task "All", area "All", no modalities,
empty search — with a year range that covers every row's present year returns
the table unchanged in row set and order. The presence proviso is needed
because the source applies the year-range step unconditionally, so a row with
an absent year is dropped even by the otherwise-empty criteria. -/
theorem empty_criteria_keeps_table (df : List Row) (lo hi : Int)
    (h : ∀ r ∈ df, ∃ y : Int, r.year_published = some y ∧ lo ≤ y ∧ y ≤ hi) :
    applyFilters df
      { selectedTask := "All", selectedArea := "All", selectedModalities := [],
        yearLo := lo, yearHi := hi, searchTerm := "" } = some df := by
  have hy : yearStep df lo hi = df := by
    unfold yearStep
    exact List.filter_eq_self.mpr
      (fun r hr => (yearPass_iff r.year_published lo hi).mpr (h r hr))
  unfold applyFilters taskStep areaStep modalityStep
  simp [hy, searchStep]

/-- Row with a present year for the C1 instances. -/
def rA1 : Row := { dataset_id := "a1", task := "t", year_published := some 2020 }

/-- Row with an absent year for the C1 counterexample. -/
def rB1 : Row := { dataset_id := "b1", task := "t", year_published := none }

/-- C1 counterexample: on the table [rA1, rB1] the full observed year range
is [2020, 2020] (2020 is the only present year), yet the empty criteria over
that range drops the missing-year row rB1, so the table is not returned
unchanged. -/
theorem empty_criteria_drops_missing_year :
    applyFilters [rA1, rB1]
      { selectedTask := "All", selectedArea := "All", selectedModalities := [],
        yearLo := 2020, yearHi := 2020, searchTerm := "" } = some [rA1] ∧
    ([rA1] : List Row) ≠ [rA1, rB1] := by
  constructor
  · decide
  · decide

/-- Witness for C1 on a table whose rows all carry a year inside the range. -/
theorem empty_criteria_keeps_table_witness :
    applyFilters [rA1]
      { selectedTask := "All", selectedArea := "All", selectedModalities := [],
        yearLo := 2020, yearHi := 2020, searchTerm := "" } = some [rA1] :=
  empty_criteria_keeps_table [rA1] 2020 2020 (by
    intro r hr
    rw [List.mem_singleton] at hr
    subst hr
    exact ⟨2020, rfl, by decide, by decide⟩)

/-- C2 (amended): the year-range step keeps exactly the rows whose
year_published is present and lies between the bounds, both inclusive; a row
with an absent year is always excluded, whatever the bounds — the source
applies the range comparison unconditionally and a missing value compares as
False, so the exclusion does not depend on the range being a strict subset of
the full observed range. -/
theorem year_step_mem_iff (df : List Row) (lo hi : Int) (r : Row) :
    r ∈ yearStep df lo hi ↔
      r ∈ df ∧ ∃ y : Int, r.year_published = some y ∧ lo ≤ y ∧ y ≤ hi := by
  unfold yearStep
  rw [List.mem_filter, yearPass_iff]

/-- Row with the only present year for the C2 counterexample. -/
def rA2 : Row := { dataset_id := "a2", task := "t", year_published := some 2020 }

/-- Row with an absent year for the C2 counterexample. -/
def rB2 : Row := { dataset_id := "b2", task := "t", year_published := none }

/-- C2 counterexample: the full observed range of [rA2, rB2] is [2020, 2020],
and that full range is active — not a strict subset — yet the missing-year
row rB2 is excluded by the year step, refuting the claim's "retained when the
full range is active" direction. -/
theorem year_full_range_drops_missing :
    rB2 ∈ ([rA2, rB2] : List Row) ∧
    rB2 ∉ yearStep [rA2, rB2] 2020 2020 ∧
    yearStep [rA2, rB2] 2020 2020 = [rA2] := by
  refine ⟨by decide, by decide, by decide⟩

/-- Row whose modalities cell has a space after the comma, as the source's
own data does, for the C3 instance. -/
def rC3 : Row :=
  { dataset_id := "c3", task := "t", modalities := some "Text, Image",
    year_published := some 2020 }

/-- C3 (code bug, evaluated at the failing input): the sidebar options
collected from rC3 offer the stripped token "Image", and the spec-side rule
matches rC3 for the selection ["Image"]; but the source's predicate splits
the cell without stripping its tokens, so " Image" differs from "Image", the
predicate rejects the row, and the whole pipeline returns the empty table. -/
theorem modality_strip_mismatch :
    "Image" ∈ collectModalities [rC3] ∧
    modalityMatchSpec ["Image"] rC3.modalities = true ∧
    modalityPass ["Image"] rC3.modalities = false ∧
    applyFilters [rC3]
      { selectedTask := "All", selectedArea := "All",
        selectedModalities := ["Image"], yearLo := 2020, yearHi := 2020,
        searchTerm := "" } = some [] := by
  refine ⟨by decide, by decide, by decide, by decide⟩

/-- Row for the C4 instance. -/
def rC4 : Row :=
  { dataset_id := "abc", task := "t", year_published := some 2020 }

/-- C4 (code bug, evaluated at the failing input): str.contains treats the
term as a regular expression (regex=True by default), so "a.c" matches the
dataset_id "abc" and the search step keeps the row, although "a.c" is not a
literal substring of "abc" and the spec-side literal filter drops it; and a
term outside the fragment such as "(" — a pattern-compile error the source
does not catch — yields no filtered table at all instead of an empty match. -/
theorem search_regex_not_literal :
    searchStep "a.c" [rC4] = some [rC4] ∧
    substrCI "a.c" "abc" = false ∧
    searchFilterSpecSide "a.c" [rC4] = [] ∧
    searchStep "(" [rC4] = none := by
  refine ⟨by decide, by decide, by decide, by decide⟩

/-- C5 (amended): a non-empty selected id that is absent from the full table
makes the detail path raise — the unguarded iloc[0] on an empty selection —
rather than being treated as "nothing selected"; the failure is uncaught in
the source. -/
theorem absent_selection_raises (df : List Row) (id : String)
    (hne : id ≠ "") (habs : lookupDetail df id = none) :
    renderSelectedDetail df (some id) = Except.error () := by
  simp [renderSelectedDetail, hne, habs]

/-- Row present in the table for the C5 instances. -/
def rC5 : Row :=
  { dataset_id := "x5", task := "t", year_published := some 2020 }

/-- C5 counterexample: with "missing" absent from the table, the detail path
yields the modelled crash, not the "nothing selected" outcome the claim
requires. -/
theorem absent_selection_not_recovered :
    renderSelectedDetail [rC5] (some "missing") = Except.error () ∧
    renderSelectedDetail [rC5] (some "missing") ≠ Except.ok none := by
  constructor
  · rfl
  · intro h
    rw [show renderSelectedDetail [rC5] (some "missing") = Except.error ()
      from rfl] at h
    exact Except.noConfusion h

/-- Witness for C5 at another absent id. -/
theorem absent_selection_raises_witness :
    renderSelectedDetail [rC5] (some "zz") = Except.error () :=
  absent_selection_raises [rC5] "zz" (by decide) (by decide)

/-- C6: selection is independent of filtering: after selecting id x (held in
the session state), a filter change or page change leaves the selection
untouched, and the detail lookup runs against the full unfiltered table — so
even under criteria whose filtered subset excludes x, the detail path still
returns x's full row. -/
theorem selection_independent_of_filter (df : List Row) (c : Criteria)
    (x : String) (r : Row) (ft : List Row) (hx : x ≠ "")
    (hr : lookupDetail df x = some r) (_hf : applyFilters df c = some ft)
    (_hout : x ∉ ft.map Row.dataset_id) :
    selectionStep (some x) UIEvent.filterChange = some x ∧
    selectionStep (some x) UIEvent.pageChange = some x ∧
    renderSelectedDetail df (some x) = Except.ok (some r) := by
  refine ⟨rfl, rfl, ?_⟩
  simp [renderSelectedDetail, hx, hr]

/-- Row selected and then filtered away in the C6 witness. -/
def rC6 : Row :=
  { dataset_id := "X", task := "t", year_published := some 2020 }

/-- Witness for C6: select "X", apply a task filter that excludes it, and the
detail path still returns the full row. -/
theorem selection_independent_of_filter_witness :
    selectionStep (some "X") UIEvent.filterChange = some "X" ∧
    selectionStep (some "X") UIEvent.pageChange = some "X" ∧
    renderSelectedDetail [rC6] (some "X") = Except.ok (some rC6) :=
  selection_independent_of_filter [rC6]
    { selectedTask := "other", selectedArea := "All", selectedModalities := [],
      yearLo := 2020, yearHi := 2020, searchTerm := "" } "X" rC6 []
    (by decide) (by decide) (by decide) (by decide)

/-- C7: the pagination arithmetic is total (the model is a total function and
no input raises); on an empty table, for each allowed page size with
requested page 1 the effective page is 1 and the visible slice is empty; and
whenever the requested page exceeds total_pages the effective page silently
resets to 1. -/
theorem paginate_safe :
    (∀ ps ∈ ([10, 20, 50, 100] : List Nat),
      (paginate [] ps 1).effectivePage = 1 ∧ (paginate [] ps 1).rows = []) ∧
    ∀ (rows : List Row) (ps rp : Nat), rp > totalPagesOf rows.length ps →
      (paginate rows ps rp).effectivePage = 1 := by
  constructor
  · decide
  · intro rows ps rp h
    unfold paginate
    simp [h]

/-- Row used to build the concrete tables of the pagination witnesses. -/
def rPg : Row := { dataset_id := "r", task := "t" }

/-- Witness for C7: page size 20 on the empty table, and a requested page 5
beyond the single page of a one-row table resets to page 1. -/
theorem paginate_safe_witness :
    ((paginate [] 20 1).effectivePage = 1 ∧ (paginate [] 20 1).rows = []) ∧
    (paginate [rPg] 20 5).effectivePage = 1 :=
  ⟨paginate_safe.1 20 (by decide), paginate_safe.2 [rPg] 20 5 (by decide)⟩

/-- C8: on any 45-row table with page size 20 and requested page 3, there are
3 total pages, the effective page stays 3, the start index is 40, and the
visible slice is exactly the last 5 rows — iloc's end is the clamped
min(40 + 20, 45) = 45. -/
theorem paginate_45_20_3 (rows : List Row) (h : rows.length = 45) :
    paginate rows 20 3 =
      { pages := 3, effectivePage := 3, startIdx := 40,
        rows := rows.drop 40 } ∧
    (rows.drop 40).length = 45 - 40 ∧ min (40 + 20) 45 = 45 := by
  refine ⟨?_, by simp [List.length_drop, h], rfl⟩
  have hl : (rows.drop 40).take 20 = rows.drop 40 :=
    List.take_of_length_le (by simp [List.length_drop, h])
  simp [paginate, totalPagesOf, h, hl]

/-- Witness for C8 on a concrete 45-row table. -/
theorem paginate_45_20_3_witness :
    paginate (List.replicate 45 rPg) 20 3 =
      { pages := 3, effectivePage := 3, startIdx := 40,
        rows := (List.replicate 45 rPg).drop 40 } ∧
    ((List.replicate 45 rPg).drop 40).length = 45 - 40 ∧
    min (40 + 20) 45 = 45 :=
  paginate_45_20_3 (List.replicate 45 rPg) (by simp)

/-- Row with the claim's benchmark_urls value for C10. -/
def rC10 : Row :=
  { dataset_id := "d10", task := "t",
    benchmark_urls := some "http://a, http://b," }

/-- Row with an absent benchmark_urls and a blank associated_tasks for
C10. -/
def rBlank10 : Row :=
  { dataset_id := "d10b", task := "t", benchmark_urls := none,
    associated_tasks := some "" }

/-- C10: the derived counts equal the number of non-empty (after stripping)
comma-separated tokens of their source field: 2 for
"http://a, http://b," (the trailing empty token is dropped), 0 for an absent
or blank field — the computation is total, never an error — and in general
the load-time count agrees with the length of the data model's parsed token
list. -/
theorem derived_counts_correct :
    benchmark_cnt rC10 = 2 ∧ benchmark_cnt rBlank10 = 0 ∧
    associated_task_cnt rBlank10 = 0 ∧
    ∀ s : String, tokenCnt (some s) = (parseTokens s).length := by
  refine ⟨by decide, by decide, by decide, ?_⟩
  intro s
  unfold tokenCnt parseTokens
  exact filter_strip_length (pySplit ',' s)

end BenchmarkExplorer

